import Mathlib

/-!
Verification of the warehouse inventory tracker (FastAPI + SQLAlchemy).

The development shallowly embeds the data model (models.py), the request
schemas (schemas.py), and the route handlers of main.py as pure Lean
functions over an explicit database state.  External collaborators are
embedded by their documented behaviour:
  * `passlib` password verification is an abstract boolean function
    parameter `vp`;
  * `python-jose` JWT encoding and decoding are modelled over an abstract
    token datatype carrying the claims and the signing key;
  * `fastapi.security.HTTPBearer` (constructed with its default
    `auto_error=True` at main.py:33) rejects a request lacking a usable
    `Authorization` header with HTTP 403 before the route handler runs;
  * the SQLite/SQLAlchemy session is a record of entity lists; the unique
    constraint on `products.sku` (models.py:27) makes a commit that would
    duplicate a sku raise, which FastAPI surfaces as HTTP 500 with no row
    written.
Timestamp columns that no handler reads (`created_at`, `supply_date`) are
omitted; `Inventory.updated_at` is kept because the JSON update handler
writes it.
-/

/-- Row of the `users` table (models.py:10-19). -/
structure User where
  id : Nat
  email : String
  hashed_password : String
  full_name : String
  is_active : Bool
deriving Repr, DecidableEq

/-- Row of the `products` table (models.py:22-34).  `current_stock`
defaults to 0 and is mutated only by the supply handlers. -/
structure Product where
  id : Nat
  name : String
  description : Option String
  sku : String
  current_stock : Int
  min_stock : Int
  max_stock : Int
  user_id : Nat
deriving Repr, DecidableEq

/-- Row of the `supplies` table (models.py:37-47); `status` defaults to
the string "received". -/
structure Supply where
  id : Nat
  product_id : Nat
  quantity : Int
  supplier : String
  status : String
  user_id : Nat
deriving Repr, DecidableEq

/-- Row of the `inventories` table (models.py:50-61).  `updated_at` is an
abstract instant stamped by the update handlers. -/
structure Inventory where
  id : Nat
  name : String
  description : Option String
  status : String
  is_successful : Bool
  comment : Option String
  updated_at : Option Int
  user_id : Nat
deriving Repr, DecidableEq

/-- The transactional session state: one list per table. -/
structure DB where
  users : List User
  products : List Product
  supplies : List Supply
  inventories : List Inventory
deriving Repr, DecidableEq

/-- An HTTP error response: status code, detail body, and whether a
WWW-Authenticate challenge header is attached. -/
structure Http where
  status : Nat
  detail : String
  www_authenticate : Bool := false
deriving Repr, DecidableEq

/-- A 303 redirect response produced by the form handlers. -/
structure Redirect where
  url : String
deriving Repr, DecidableEq

/-- Mutate the first element of a list satisfying `q` by `f`; models
`query(...).first()` followed by attribute assignment on the returned ORM
row, leaving every other row untouched. -/
def modifyP (q : α → Bool) (f : α → α) : List α → List α
  | [] => []
  | a :: t => if q a then f a :: t else a :: modifyP q f t

/-- Next autoincrement primary key for `supplies`. -/
def freshSupplyId (db : DB) : Nat :=
  db.supplies.foldr (fun s m => max s.id m) 0 + 1

/-- Next autoincrement primary key for `products`. -/
def freshProductId (db : DB) : Nat :=
  db.products.foldr (fun p m => max p.id m) 0 + 1

/-! ### Request schemas (schemas.py) -/

/-- Payload of `SupplyCreate` (schemas.py:59-71). -/
structure SupplyCreate where
  product_id : Nat
  quantity : Int
  supplier : String
deriving Repr, DecidableEq

/-- Field validator `validate_quantity` (schemas.py:64-68): the quantity
must be strictly positive. -/
def supplyCreate_valid (s : SupplyCreate) : Bool :=
  s.quantity > 0

/-- Payload of `ProductCreate` (schemas.py:28-48). -/
structure ProductCreate where
  name : String
  description : Option String
  sku : String
  min_stock : Int
  max_stock : Int
deriving Repr, DecidableEq

/-- Model of Python's `str.strip()`: drop leading and trailing
whitespace. -/
def stripStr (s : String) : String :=
  ⟨((s.data.dropWhile Char.isWhitespace).reverse.dropWhile Char.isWhitespace).reverse⟩

/-- Field validators of `ProductBase` (schemas.py:35-45): the sku is
stripped and must be non-empty, and the stock thresholds must be
non-negative; on success the parsed payload carries the stripped sku. -/
def productCreate_parse (p : ProductCreate) : Option ProductCreate :=
  if stripStr p.sku = "" then none
  else if p.min_stock < 0 || p.max_stock < 0 then none
  else some { p with sku := stripStr p.sku }

/-- Payload of `InventoryUpdate` (schemas.py:112-117); a `none` field was
absent from the request (`exclude_unset`). -/
structure InventoryUpdate where
  name : Option String := none
  description : Option String := none
  status : Option String := none
  is_successful : Option Bool := none
  comment : Option String := none
deriving Repr, DecidableEq

/-! ### Token service and auth resolver (main.py:28-110) -/

/-- Process-wide signing key (main.py:28). -/
def SECRET_KEY : String := "warehouse-secret-key-2024-course-project"

/-- Default token lifetime in seconds (main.py:30, 30 minutes). -/
def ACCESS_TOKEN_EXPIRE_SECONDS : Int := 30 * 60

/-- A bearer token string, abstracted: either a well-formed JWT carrying
its claims (`sub`, `exp`) and the key it was signed with, or an
unparsable string. -/
inductive TokenStr where
  | jwt (sub : Option String) (exp : Int) (key : String)
  | malformed (raw : String)
deriving Repr, DecidableEq

/-- Decoded JWT payload. -/
structure Payload where
  sub : Option String
  exp : Int
deriving Repr, DecidableEq

/-- Model of `jose.jwt.decode(token, key, algorithms=[ALGORITHM])` at
verification instant `now`: fails on a malformed token, a signature made
with a different key, or an expiry in the past (jose treats `exp < now`
as expired, zero leeway).  All failures raise `JWTError`, collapsed to
`Unit`. -/
def jwt_decode (t : TokenStr) (key : String) (now : Int) : Except Unit Payload :=
  match t with
  | .malformed _ => .error ()
  | .jwt sub exp k =>
      if k ≠ key then .error ()
      else if exp < now then .error ()
      else .ok { sub := sub, exp := exp }

/-- Model of `create_access_token` (main.py:56-64): the issued token
carries the subject and the absolute expiry `now + ttl`, defaulting the
ttl to 30 minutes, signed with the process key. -/
def create_access_token (sub : String) (expires_delta : Option Int) (now : Int) : TokenStr :=
  .jwt (some sub) (now + expires_delta.getD ACCESS_TOKEN_EXPIRE_SECONDS) SECRET_KEY

/-- Model of `get_user_by_email` (main.py:45-46). -/
def get_user_by_email (db : DB) (email : String) : Option User :=
  db.users.find? (fun u => u.email == email)

/-- Model of `authenticate_user` (main.py:49-53); `vp` abstracts
`passlib`'s `pwd_context.verify`.  Returns the user on success, `none`
(Python `False`) otherwise. -/
def authenticate_user (vp : String → String → Bool) (db : DB) (email password : String) :
    Option User :=
  match get_user_by_email db email with
  | none => none
  | some user => if vp password user.hashed_password then some user else none

/-- The inbound `Authorization` header of an API request. -/
inductive Authorization where
  | missing
  | header (scheme : String) (token : TokenStr)
deriving Repr, DecidableEq

/-- Model of Python's `str.lower()`, used when comparing header
schemes. -/
def lowerStr (s : String) : String :=
  ⟨s.data.map Char.toLower⟩

/-- Model of `fastapi.security.HTTPBearer()` with its default
`auto_error=True` (main.py:33): a missing header is rejected with HTTP
403 "Not authenticated" (no challenge header) and a non-bearer scheme
with HTTP 403 "Invalid authentication credentials", in both cases before
the route handler runs. -/
def httpBearer : Authorization → Except Http TokenStr
  | .missing => .error { status := 403, detail := "Not authenticated" }
  | .header scheme token =>
      if lowerStr scheme ≠ "bearer" then
        .error { status := 403, detail := "Invalid authentication credentials" }
      else .ok token

/-- Model of `get_current_user_for_api` (main.py:68-93) composed with its
`Depends(security_scheme)` dependency.  Because `HTTPBearer` raises on a
missing header, the handler's own `if not credentials` branch
(main.py:73-78, a 401 with a WWW-Authenticate header) is unreachable. -/
def get_current_user_for_api (db : DB) (auth : Authorization) (now : Int) :
    Except Http User :=
  match httpBearer auth with
  | .error e => .error e
  | .ok token =>
      match jwt_decode token SECRET_KEY now with
      | .error _ => .error { status := 401, detail := "Invalid token" }
      | .ok payload =>
          match payload.sub with
          | none => .error { status := 401, detail := "Invalid token" }
          | some email =>
              match get_user_by_email db email with
              | none => .error { status := 401, detail := "User not found" }
              | some user => .ok user

/-- Model of `get_current_user_for_web` (main.py:96-110): the token comes
from the `access_token` cookie, and every failure resolves to "no user"
rather than an error. -/
def get_current_user_for_web (db : DB) (cookie : Option TokenStr) (now : Int) :
    Option User :=
  match cookie with
  | none => none
  | some token =>
      match jwt_decode token SECRET_KEY now with
      | .error _ => none
      | .ok payload =>
          match payload.sub with
          | none => none
          | some email => get_user_by_email db email

/-! ### JSON API handlers (main.py:238-455)

Each handler takes the already-authenticated `current_user` (the result of
`require_auth_for_api`) and returns the response paired with the session
state after commit. -/

/-- Handler `read_product_api` (main.py:250-263): fetch one product by id,
owner-scoped. -/
def read_product_api (db : DB) (current_user : User) (product_id : Nat) :
    Except Http Product × DB :=
  match db.products.find? (fun p => p.id == product_id && p.user_id == current_user.id) with
  | none => (.error { status := 404, detail := "Product not found" }, db)
  | some product => (.ok product, db)

/-- Handler `create_product_api` (main.py:266-276) after the
`ProductCreate` body has been parsed.  The handler itself performs no
duplicate check: a sku already present violates the unique constraint on
`products.sku` at commit, the uncaught IntegrityError surfaces as HTTP
500 and the transaction leaves no row behind. -/
def create_product_api (db : DB) (current_user : User) (product : ProductCreate) :
    Except Http Product × DB :=
  let db_product : Product :=
    { id := freshProductId db, name := product.name, description := product.description,
      sku := product.sku, current_stock := 0, min_stock := product.min_stock,
      max_stock := product.max_stock, user_id := current_user.id }
  if db.products.any (fun q => q.sku == product.sku) then
    (.error { status := 500, detail := "Internal Server Error" }, db)
  else
    (.ok db_product, { db with products := db.products ++ [db_product] })

/-- `POST /products/` as seen by a client: FastAPI validates the body
against `ProductCreate` (422 on failure) before calling the handler. -/
def post_products (db : DB) (current_user : User) (body : ProductCreate) :
    Except Http Product × DB :=
  match productCreate_parse body with
  | none => (.error { status := 422, detail := "Unprocessable Entity" }, db)
  | some product => create_product_api db current_user product

/-- Field assignment loop of `update_product_api` (main.py:294-295):
`product.dict()` holds exactly the five `ProductCreate` fields. -/
def applyProductUpdate (product : ProductCreate) (p : Product) : Product :=
  { p with name := product.name, description := product.description,
           sku := product.sku, min_stock := product.min_stock,
           max_stock := product.max_stock }

/-- Handler `update_product_api` (main.py:279-299): owner-scoped fetch,
then overwrite the five payload fields on the fetched row. -/
def update_product_api (db : DB) (current_user : User) (product_id : Nat)
    (product : ProductCreate) : Except Http Product × DB :=
  match db.products.find? (fun p => p.id == product_id && p.user_id == current_user.id) with
  | none => (.error { status := 404, detail := "Product not found" }, db)
  | some db_product =>
      (.ok (applyProductUpdate product db_product),
       { db with products :=
           (modifyP (fun p => p.id == product_id && p.user_id == current_user.id)
             (applyProductUpdate product) db.products) })

/-- `PUT /products/{id}` as seen by a client, with body validation. -/
def put_products (db : DB) (current_user : User) (product_id : Nat)
    (body : ProductCreate) : Except Http Product × DB :=
  match productCreate_parse body with
  | none => (.error { status := 422, detail := "Unprocessable Entity" }, db)
  | some product => update_product_api db current_user product_id product

/-- Handler `delete_product_api` (main.py:302-318).  The ORM cascade
`all, delete-orphan` on `Product.supplies` (models.py:34) deletes the
product's supply rows with it. -/
def delete_product_api (db : DB) (current_user : User) (product_id : Nat) :
    Except Http String × DB :=
  match db.products.find? (fun p => p.id == product_id && p.user_id == current_user.id) with
  | none => (.error { status := 404, detail := "Product not found" }, db)
  | some product =>
      (.ok "Product deleted successfully",
       { db with
           products := (db.products.eraseP
             (fun p => p.id == product_id && p.user_id == current_user.id)),
           supplies := db.supplies.filter (fun s => s.product_id != product.id) })

/-- Handler `create_supply_api` (main.py:333-353): owner-scoped product
lookup (404 on miss), then insert the supply row and increment the
product's `current_stock` by the supplied quantity in the same commit. -/
def create_supply_api (db : DB) (current_user : User) (supply : SupplyCreate) :
    Except Http Supply × DB :=
  match db.products.find?
      (fun p => p.id == supply.product_id && p.user_id == current_user.id) with
  | none => (.error { status := 404, detail := "Product not found" }, db)
  | some _ =>
      let db_supply : Supply :=
        { id := freshSupplyId db, product_id := supply.product_id,
          quantity := supply.quantity, supplier := supply.supplier,
          status := "received", user_id := current_user.id }
      (.ok db_supply,
       { db with
           products :=
             (modifyP (fun p => p.id == supply.product_id && p.user_id == current_user.id)
               (fun p => { p with current_stock := p.current_stock + supply.quantity })
               db.products),
           supplies := db.supplies ++ [db_supply] })

/-- `POST /supplies/` as seen by a client: FastAPI validates the body
against `SupplyCreate` (schemas.py:64-68), rejecting a non-positive
quantity with 422 before the handler runs. -/
def post_supplies (db : DB) (current_user : User) (body : SupplyCreate) :
    Except Http Supply × DB :=
  if supplyCreate_valid body then create_supply_api db current_user body
  else (.error { status := 422, detail := "Quantity must be positive" }, db)

/-- Handler `delete_supply_api` (main.py:356-380): owner-scoped supply
lookup (404 on miss); if the supply's product is still present (again
owner-scoped) its stock is decremented by the supply's quantity; the
supply row is deleted in either case. -/
def delete_supply_api (db : DB) (current_user : User) (supply_id : Nat) :
    Except Http String × DB :=
  match db.supplies.find? (fun s => s.id == supply_id && s.user_id == current_user.id) with
  | none => (.error { status := 404, detail := "Supply not found" }, db)
  | some supply =>
      let products1 :=
        match db.products.find?
            (fun p => p.id == supply.product_id && p.user_id == current_user.id) with
        | none => db.products
        | some _ =>
            modifyP (fun p => p.id == supply.product_id && p.user_id == current_user.id)
              (fun p => { p with current_stock := p.current_stock - supply.quantity })
              db.products
      (.ok "Supply deleted successfully",
       { db with
           products := products1,
           supplies := (db.supplies.eraseP
             (fun s => s.id == supply_id && s.user_id == current_user.id)) })

/-- Field assignment loop of `update_inventory_api` (main.py:428-430)
over `inventory.dict(exclude_unset=True)`: only the fields present in the
request are overwritten. -/
def applyInventoryUpdate (upd : InventoryUpdate) (inv : Inventory) : Inventory :=
  { inv with
      name := upd.name.getD inv.name,
      description := (match upd.description with | none => inv.description | some d => some d),
      status := upd.status.getD inv.status,
      is_successful := upd.is_successful.getD inv.is_successful,
      comment := (match upd.comment with | none => inv.comment | some c => some c) }

/-- Handler `update_inventory_api` (main.py:413-436): owner-scoped fetch,
apply the provided fields — the `InventoryUpdate` schema carries no
validator, so any `status` string is applied — and stamp `updated_at`
with the current Moscow time `now`. -/
def update_inventory_api (db : DB) (current_user : User) (inventory_id : Nat)
    (inventory : InventoryUpdate) (now : Int) : Except Http Inventory × DB :=
  match db.inventories.find?
      (fun i => i.id == inventory_id && i.user_id == current_user.id) with
  | none => (.error { status := 404, detail := "Inventory not found" }, db)
  | some db_inventory =>
      let upd := fun i => { applyInventoryUpdate inventory i with updated_at := some now }
      (.ok (upd db_inventory),
       { db with inventories :=
           (modifyP (fun i => i.id == inventory_id && i.user_id == current_user.id)
             upd db.inventories) })

/-- Handler `delete_inventory_api` (main.py:439-455). -/
def delete_inventory_api (db : DB) (current_user : User) (inventory_id : Nat) :
    Except Http String × DB :=
  match db.inventories.find?
      (fun i => i.id == inventory_id && i.user_id == current_user.id) with
  | none => (.error { status := 404, detail := "Inventory not found" }, db)
  | some _ =>
      (.ok "Inventory deleted successfully",
       { db with inventories := (db.inventories.eraseP
           (fun i => i.id == inventory_id && i.user_id == current_user.id)) })

/-! ### Form (page) handlers (main.py:504-701)

Each form handler takes the already-authenticated `current_user` (the
result of `require_auth_for_web`) and returns a 303 redirect paired with
the session state after commit. -/

/-- Handler `create_product_from_form` (main.py:504-530): the form path
checks for a duplicate sku explicitly (globally, not owner-scoped) and
redirects with an error message before any write. -/
def create_product_from_form (db : DB) (current_user : User) (name sku : String)
    (description : Option String) (min_stock max_stock : Int) : Redirect × DB :=
  match db.products.find? (fun p => p.sku == sku) with
  | some _ => ({ url := "/products-page?error=SKU+already+exists" }, db)
  | none =>
      let db_product : Product :=
        { id := freshProductId db, name := name, description := description, sku := sku,
          current_stock := 0, min_stock := min_stock, max_stock := max_stock,
          user_id := current_user.id }
      ({ url := "/products-page?success=Product+created" },
       { db with products := db.products ++ [db_product] })

/-- Handler `delete_product_from_form` (main.py:533-548), with the same
supply cascade as the API variant. -/
def delete_product_from_form (db : DB) (current_user : User) (product_id : Nat) :
    Redirect × DB :=
  match db.products.find? (fun p => p.id == product_id && p.user_id == current_user.id) with
  | none => ({ url := "/products-page?error=Product+not+found" }, db)
  | some product =>
      ({ url := "/products-page?success=Product+deleted" },
       { db with
           products := (db.products.eraseP
             (fun p => p.id == product_id && p.user_id == current_user.id)),
           supplies := db.supplies.filter (fun s => s.product_id != product.id) })

/-- Handler `create_supply_from_form` (main.py:551-580): owner-scoped
product lookup, then insert the supply and increment the stock.  The raw
form fields bypass the `SupplyCreate` schema, so the quantity is applied
without any positivity check. -/
def create_supply_from_form (db : DB) (current_user : User) (product_id : Nat)
    (quantity : Int) (supplier : String) : Redirect × DB :=
  match db.products.find? (fun p => p.id == product_id && p.user_id == current_user.id) with
  | none => ({ url := "/supplies-page?error=Product+not+found" }, db)
  | some _ =>
      let db_supply : Supply :=
        { id := freshSupplyId db, product_id := product_id, quantity := quantity,
          supplier := supplier, status := "received", user_id := current_user.id }
      ({ url := "/supplies-page?success=Supply+created" },
       { db with
           products :=
             (modifyP (fun p => p.id == product_id && p.user_id == current_user.id)
               (fun p => { p with current_stock := p.current_stock + quantity })
               db.products),
           supplies := db.supplies ++ [db_supply] })

/-- Handler `delete_supply_from_form` (main.py:583-609): same ledger
logic as `delete_supply_api`, with redirect responses. -/
def delete_supply_from_form (db : DB) (current_user : User) (supply_id : Nat) :
    Redirect × DB :=
  match db.supplies.find? (fun s => s.id == supply_id && s.user_id == current_user.id) with
  | none => ({ url := "/supplies-page?error=Поставка+не+найдена" }, db)
  | some supply =>
      let products1 :=
        match db.products.find?
            (fun p => p.id == supply.product_id && p.user_id == current_user.id) with
        | none => db.products
        | some _ =>
            modifyP (fun p => p.id == supply.product_id && p.user_id == current_user.id)
              (fun p => { p with current_stock := p.current_stock - supply.quantity })
              db.products
      ({ url := "/supplies-page?success=Поставка+удалена" },
       { db with
           products := products1,
           supplies := (db.supplies.eraseP
             (fun s => s.id == supply_id && s.user_id == current_user.id)) })

/-- Handler `update_inventory_from_form` (main.py:633-658): overwrites
name, comment and `is_successful`, and stamps `updated_at`; it never
touches `status`. -/
def update_inventory_from_form (db : DB) (current_user : User) (inventory_id : Nat)
    (name : String) (comment : Option String) (is_successful : Bool) (now : Int) :
    Redirect × DB :=
  match db.inventories.find?
      (fun i => i.id == inventory_id && i.user_id == current_user.id) with
  | none => ({ url := "/inventories-page?error=Инвентаризация+не+найдена" }, db)
  | some _ =>
      ({ url := "/inventories-page?success=Инвентаризация+обновлена" },
       { db with inventories :=
           (modifyP (fun i => i.id == inventory_id && i.user_id == current_user.id)
             (fun i => { i with name := name, comment := comment,
                                is_successful := is_successful, updated_at := some now })
             db.inventories) })

/-- The `valid_statuses` list of main.py:676. -/
def valid_statuses : List String := ["pending", "completed", "cancelled"]

/-- Handler `update_inventory_status` (main.py:661-683): owner-scoped
fetch, reject a status outside `valid_statuses` with an error redirect
and no write, otherwise set exactly the `status` column. -/
def update_inventory_status (db : DB) (current_user : User) (inventory_id : Nat)
    (status : String) : Redirect × DB :=
  match db.inventories.find?
      (fun i => i.id == inventory_id && i.user_id == current_user.id) with
  | none => ({ url := "/inventories-page?error=Inventory+not+found" }, db)
  | some _ =>
      if valid_statuses.contains status then
        ({ url := "/inventories-page?success=Status+updated" },
         { db with inventories :=
             (modifyP (fun i => i.id == inventory_id && i.user_id == current_user.id)
               (fun i => { i with status := status }) db.inventories) })
      else
        ({ url := "/inventories-page?error=Invalid+status" }, db)

/-- Handler `delete_inventory_from_form` (main.py:686-701). -/
def delete_inventory_from_form (db : DB) (current_user : User) (inventory_id : Nat) :
    Redirect × DB :=
  match db.inventories.find?
      (fun i => i.id == inventory_id && i.user_id == current_user.id) with
  | none => ({ url := "/inventories-page?error=Inventory+not+found" }, db)
  | some _ =>
      ({ url := "/inventories-page?success=Inventory+deleted" },
       { db with inventories := (db.inventories.eraseP
           (fun i => i.id == inventory_id && i.user_id == current_user.id)) })

/-! ### Supply operation sequences (for the stock-ledger invariant) -/

/-- One supply operation performed through the application's endpoints by
an authenticated user: a `POST /supplies/` create or a
`DELETE /supplies/{id}` delete. -/
inductive Op where
  | receive (u : User) (body : SupplyCreate)
  | retract (u : User) (supply_id : Nat)
deriving Repr

/-- Apply one endpoint operation to the session state, discarding the
response. -/
def applyOp (db : DB) : Op → DB
  | .receive u body => (post_supplies db u body).2
  | .retract u sid => (delete_supply_api db u sid).2

/-- Apply a sequence of endpoint operations left to right. -/
def applyOps (db : DB) : List Op → DB
  | [] => db
  | op :: ops => applyOps (applyOp db op) ops

/-- Sum of the quantities of the supply rows currently linked to product
id `pid`. -/
def supplySum (l : List Supply) (pid : Nat) : Int :=
  ((l.filter (fun s => s.product_id == pid)).map Supply.quantity).sum

/-- The stock-ledger correspondence: every product's `current_stock`
equals the sum of quantities of the supplies referencing it. -/
def StockInv (db : DB) : Prop :=
  ∀ p ∈ db.products, p.current_stock = supplySum db.supplies p.id

/-- Structural well-formedness the handlers preserve: product ids are
pairwise distinct, and every supply row belongs to the owner of its
product (supplies are only ever created through an owner-scoped product
lookup). -/
def WF (db : DB) : Prop :=
  (db.products.map Product.id).Nodup ∧
  ∀ s ∈ db.supplies, ∀ p ∈ db.products, p.id = s.product_id → p.user_id = s.user_id

/-! ### List lemmas about first-match modification and erasure -/

theorem find?_decomp {q : α → Bool} {l : List α} {a : α} (h : l.find? q = some a) :
    ∃ l₁ l₂, l = l₁ ++ a :: l₂ ∧ (∀ x ∈ l₁, q x = false) := by
  induction l with
  | nil => simp at h
  | cons b t ih =>
    by_cases hb : q b
    · rw [List.find?_cons_of_pos _ hb] at h
      obtain rfl : b = a := by injection h
      exact ⟨[], t, rfl, by simp⟩
    · rw [List.find?_cons_of_neg _ hb] at h
      obtain ⟨l₁, l₂, rfl, hl₁⟩ := ih h
      refine ⟨b :: l₁, l₂, rfl, ?_⟩
      intro x hx
      rcases List.mem_cons.mp hx with rfl | hx
      · simpa using hb
      · exact hl₁ x hx

theorem modifyP_decomp (q : α → Bool) (f : α → α) (l₁ l₂ : List α) (a : α)
    (h1 : ∀ x ∈ l₁, q x = false) (ha : q a = true) :
    modifyP q f (l₁ ++ a :: l₂) = l₁ ++ f a :: l₂ := by
  induction l₁ with
  | nil => simp [modifyP, ha]
  | cons b t ih =>
    have hb : q b = false := h1 b (List.mem_cons_self b t)
    simp only [List.cons_append, modifyP, hb, Bool.false_eq_true, if_false, List.cons.injEq,
      true_and]
    exact ih (fun x hx => h1 x (List.mem_cons_of_mem b hx))

theorem modifyP_eq_of_none (q : α → Bool) (f : α → α) (l : List α)
    (h : ∀ x ∈ l, q x = false) : modifyP q f l = l := by
  induction l with
  | nil => rfl
  | cons b t ih =>
    have hb : q b = false := h b (List.mem_cons_self b t)
    simp only [modifyP, hb, Bool.false_eq_true, if_false, List.cons.injEq, true_and]
    exact ih (fun x hx => h x (List.mem_cons_of_mem b hx))

theorem map_modifyP (q : α → Bool) (f : α → α) (g : α → β) (l : List α)
    (hf : ∀ x, g (f x) = g x) : (modifyP q f l).map g = l.map g := by
  induction l with
  | nil => rfl
  | cons b t ih =>
    by_cases hb : q b
    · simp [modifyP, hb, hf]
    · simp [modifyP, hb, ih]

theorem eraseP_decomp (q : α → Bool) (l₁ l₂ : List α) (a : α)
    (h1 : ∀ x ∈ l₁, q x = false) (ha : q a = true) :
    (l₁ ++ a :: l₂).eraseP q = l₁ ++ l₂ := by
  induction l₁ with
  | nil => simp [List.eraseP_cons, ha]
  | cons b t ih =>
    have hb : q b = false := h1 b (List.mem_cons_self b t)
    simp only [List.cons_append, List.eraseP_cons, hb, cond_false, List.cons.injEq, true_and]
    exact ih (fun x hx => h1 x (List.mem_cons_of_mem b hx))

/-! ### Arithmetic of supply sums -/

theorem supplySum_append (l₁ l₂ : List Supply) (pid : Nat) :
    supplySum (l₁ ++ l₂) pid = supplySum l₁ pid + supplySum l₂ pid := by
  simp [supplySum, List.filter_append]

theorem supplySum_cons (s : Supply) (l : List Supply) (pid : Nat) :
    supplySum (s :: l) pid
      = (if s.product_id = pid then s.quantity else 0) + supplySum l pid := by
  by_cases h : s.product_id = pid
  · simp [supplySum, List.filter_cons, h]
  · simp [supplySum, List.filter_cons, h]

theorem supplySum_middle (m₁ m₂ : List Supply) (s : Supply) (pid : Nat) :
    supplySum (m₁ ++ s :: m₂) pid
      = supplySum (m₁ ++ m₂) pid + (if s.product_id = pid then s.quantity else 0) := by
  rw [supplySum_append, supplySum_cons, supplySum_append]
  ring

theorem supplySum_nil (pid : Nat) : supplySum [] pid = 0 := rfl

/-- One `POST /supplies/` request preserves well-formedness and the
stock-ledger correspondence. -/
theorem receive_step (db : DB) (u : User) (body : SupplyCreate)
    (hwf : WF db) (hinv : StockInv db) :
    WF (post_supplies db u body).2 ∧ StockInv (post_supplies db u body).2 := by
  unfold post_supplies
  by_cases hv : supplyCreate_valid body
  case neg => simpa [hv] using ⟨hwf, hinv⟩
  case pos =>
  simp only [hv, if_true]
  cases hfind : db.products.find? (fun p => p.id == body.product_id && p.user_id == u.id) with
  | none =>
      simp only [create_supply_api, hfind]
      exact ⟨hwf, hinv⟩
  | some p =>
      have hq := List.find?_some hfind
      simp only [Bool.and_eq_true, beq_iff_eq] at hq
      obtain ⟨hpid, hpuid⟩ := hq
      obtain ⟨l₁, l₂, hdec, hl₁⟩ := find?_decomp hfind
      have hqp : (fun q => q.id == body.product_id && q.user_id == u.id) p = true := by
        simp [hpid, hpuid]
      have hmod :
          modifyP (fun q => q.id == body.product_id && q.user_id == u.id)
            (fun q => { q with current_stock := q.current_stock + body.quantity })
            db.products
          = l₁ ++ { p with current_stock := p.current_stock + body.quantity } :: l₂ := by
        rw [hdec]; exact modifyP_decomp _ _ l₁ l₂ p hl₁ hqp
      have hNodup : ((l₁ ++ p :: l₂).map Product.id).Nodup := by
        rw [← hdec]; exact hwf.1
      have hnotin : p.id ∉ (l₁.map Product.id ++ l₂.map Product.id) := by
        have := (List.nodup_middle.mp (by simpa [List.map_append] using hNodup))
        exact (List.nodup_cons.mp this).1
      have hidne : ∀ x : Product, x ∈ l₁ ++ l₂ → x.id ≠ p.id := by
        intro x hx hxe
        apply hnotin
        rw [← hxe]
        rcases List.mem_append.mp hx with hx1 | hx2
        · exact List.mem_append.mpr (Or.inl (List.mem_map_of_mem Product.id hx1))
        · exact List.mem_append.mpr (Or.inr (List.mem_map_of_mem Product.id hx2))
      simp only [create_supply_api, hfind, hmod]
      constructor
      · constructor
        · simpa [List.map_append] using hNodup
        · intro s hs p2 hp2 hips
          rcases List.mem_append.mp hs with hsold | hsnew
          · have hmem2 : p2 ∈ l₁ ++ p :: l₂ ∨ p2 = { p with current_stock := p.current_stock + body.quantity } := by
              rcases List.mem_append.mp hp2 with h1 | h2
              · exact Or.inl (List.mem_append.mpr (Or.inl h1))
              · rcases List.mem_cons.mp h2 with rfl | h3
                · exact Or.inr rfl
                · exact Or.inl (List.mem_append.mpr (Or.inr (List.mem_cons_of_mem _ h3)))
            rcases hmem2 with h1 | rfl
            · exact hwf.2 s hsold p2 (hdec ▸ h1) hips
            · exact hwf.2 s hsold p (hdec ▸ List.mem_append.mpr (Or.inr (List.mem_cons_self _ _))) hips
          · have hsn : s = Supply.mk (freshSupplyId db) body.product_id
                body.quantity body.supplier "received" u.id := by simpa using hsnew
            subst hsn
            simp only at hips ⊢
            rcases List.mem_append.mp hp2 with h1 | h2
            · exact absurd (hpid ▸ hips) (hidne p2 (List.mem_append.mpr (Or.inl h1)) )
            · rcases List.mem_cons.mp h2 with rfl | h3
              · simpa using hpuid
              · exact absurd (hpid ▸ hips) (hidne p2 (List.mem_append.mpr (Or.inr h3)))
      · intro p2 hp2
        rcases List.mem_append.mp hp2 with h1 | h2
        · have hne : p2.id ≠ body.product_id := by
            rw [← hpid]; exact hidne p2 (List.mem_append.mpr (Or.inl h1))
          have hold := hinv p2 (hdec ▸ List.mem_append.mpr (Or.inl h1))
          rw [supplySum_append, supplySum_cons, supplySum_nil, if_neg (by simpa using hne.symm)]
          omega
        · rcases List.mem_cons.mp h2 with rfl | h3
          · have hold := hinv p (hdec ▸ List.mem_append.mpr (Or.inr (List.mem_cons_self _ _)))
            show p.current_stock + body.quantity = supplySum (db.supplies ++ [Supply.mk (freshSupplyId db) body.product_id body.quantity body.supplier "received" u.id]) p.id
            rw [supplySum_append, supplySum_cons, supplySum_nil,
              if_pos (by simpa using hpid.symm)]
            have hqr : (Supply.mk (freshSupplyId db) body.product_id body.quantity body.supplier "received" u.id).quantity = body.quantity := rfl
            rw [hqr]
            omega
          · have hne : p2.id ≠ body.product_id := by
              rw [← hpid]; exact hidne p2 (List.mem_append.mpr (Or.inr h3))
            have hold := hinv p2 (hdec ▸ List.mem_append.mpr (Or.inr (List.mem_cons_of_mem _ h3)))
            rw [supplySum_append, supplySum_cons, supplySum_nil, if_neg (by simpa using hne.symm)]
            omega

/-- One `DELETE /supplies/{id}` request preserves well-formedness and the
stock-ledger correspondence. -/
theorem retract_step (db : DB) (u : User) (sid : Nat)
    (hwf : WF db) (hinv : StockInv db) :
    WF (delete_supply_api db u sid).2 ∧ StockInv (delete_supply_api db u sid).2 := by
  cases hfs : db.supplies.find? (fun s => s.id == sid && s.user_id == u.id) with
  | none =>
      simp only [delete_supply_api, hfs]
      exact ⟨hwf, hinv⟩
  | some s =>
      have hqs := List.find?_some hfs
      simp only [Bool.and_eq_true, beq_iff_eq] at hqs
      obtain ⟨hsid, hsuid⟩ := hqs
      obtain ⟨m₁, m₂, hsdec, hm₁⟩ := find?_decomp hfs
      have herase : db.supplies.eraseP (fun x => x.id == sid && x.user_id == u.id)
          = m₁ ++ m₂ := by
        rw [hsdec]; exact eraseP_decomp _ m₁ m₂ s hm₁ (by simp [hsid, hsuid])
      have hsub : ∀ x : Supply, x ∈ m₁ ++ m₂ → x ∈ db.supplies := by
        intro x hx
        rw [hsdec]
        rcases List.mem_append.mp hx with h1 | h2
        · exact List.mem_append.mpr (Or.inl h1)
        · exact List.mem_append.mpr (Or.inr (List.mem_cons_of_mem _ h2))
      have hsmem : s ∈ db.supplies := by
        rw [hsdec]; exact List.mem_append.mpr (Or.inr (List.mem_cons_self _ _))
      cases hfp : db.products.find? (fun p => p.id == s.product_id && p.user_id == u.id) with
      | none =>
          simp only [delete_supply_api, hfs, hfp, herase]
          constructor
          · exact ⟨hwf.1, fun x hx p2 hp2 hips => hwf.2 x (hsub x hx) p2 hp2 hips⟩
          · intro p2 hp2
            have hnot := List.find?_eq_none.mp hfp p2 hp2
            by_cases heq : p2.id = s.product_id
            · exfalso
              have huser : p2.user_id = s.user_id := hwf.2 s hsmem p2 hp2 heq
              exact hnot (by simp [heq, huser, hsuid])
            · have hold := hinv p2 hp2
              rw [hsdec, supplySum_middle, if_neg (fun h => heq h.symm)] at hold
              show p2.current_stock = supplySum (m₁ ++ m₂) p2.id
              omega
      | some p =>
          have hqp := List.find?_some hfp
          simp only [Bool.and_eq_true, beq_iff_eq] at hqp
          obtain ⟨hpid, hpuid⟩ := hqp
          obtain ⟨l₁, l₂, hdec, hl₁⟩ := find?_decomp hfp
          have hmod :
              modifyP (fun q => q.id == s.product_id && q.user_id == u.id)
                (fun q => { q with current_stock := q.current_stock - s.quantity })
                db.products
              = l₁ ++ { p with current_stock := p.current_stock - s.quantity } :: l₂ := by
            rw [hdec]; exact modifyP_decomp _ _ l₁ l₂ p hl₁ (by simp [hpid, hpuid])
          have hNodup : ((l₁ ++ p :: l₂).map Product.id).Nodup := by
            rw [← hdec]; exact hwf.1
          have hnotin : p.id ∉ (l₁.map Product.id ++ l₂.map Product.id) := by
            have := (List.nodup_middle.mp (by simpa [List.map_append] using hNodup))
            exact (List.nodup_cons.mp this).1
          have hidne : ∀ x : Product, x ∈ l₁ ++ l₂ → x.id ≠ p.id := by
            intro x hx hxe
            apply hnotin
            rw [← hxe]
            rcases List.mem_append.mp hx with hx1 | hx2
            · exact List.mem_append.mpr (Or.inl (List.mem_map_of_mem Product.id hx1))
            · exact List.mem_append.mpr (Or.inr (List.mem_map_of_mem Product.id hx2))
          simp only [delete_supply_api, hfs, hfp, herase, hmod]
          constructor
          · constructor
            · simpa [List.map_append] using hNodup
            · intro x hx p2 hp2 hips
              have hxold := hsub x hx
              rcases List.mem_append.mp hp2 with h1 | h2
              · exact hwf.2 x hxold p2 (hdec ▸ List.mem_append.mpr (Or.inl h1)) hips
              · rcases List.mem_cons.mp h2 with rfl | h3
                · exact hwf.2 x hxold p
                    (hdec ▸ List.mem_append.mpr (Or.inr (List.mem_cons_self _ _))) hips
                · exact hwf.2 x hxold p2
                    (hdec ▸ List.mem_append.mpr (Or.inr (List.mem_cons_of_mem _ h3))) hips
          · intro p2 hp2
            rcases List.mem_append.mp hp2 with h1 | h2
            · have hne : p2.id ≠ p.id := hidne p2 (List.mem_append.mpr (Or.inl h1))
              have hold := hinv p2 (hdec ▸ List.mem_append.mpr (Or.inl h1))
              rw [hsdec, supplySum_middle,
                if_neg (by rw [← hpid]; exact fun h => hne h.symm)] at hold
              show p2.current_stock = supplySum (m₁ ++ m₂) p2.id
              omega
            · rcases List.mem_cons.mp h2 with rfl | h3
              · have hold := hinv p (hdec ▸ List.mem_append.mpr (Or.inr (List.mem_cons_self _ _)))
                rw [hsdec, supplySum_middle, if_pos hpid.symm] at hold
                show p.current_stock - s.quantity = supplySum (m₁ ++ m₂) p.id
                omega
              · have hne : p2.id ≠ p.id := hidne p2 (List.mem_append.mpr (Or.inr h3))
                have hold := hinv p2 (hdec ▸ List.mem_append.mpr (Or.inr (List.mem_cons_of_mem _ h3)))
                rw [hsdec, supplySum_middle,
                  if_neg (by rw [← hpid]; exact fun h => hne h.symm)] at hold
                show p2.current_stock = supplySum (m₁ ++ m₂) p2.id
                omega

/-! ### Concrete sample data for witnesses and counterexamples -/

/-- Sample user owning the sample records. -/
def uAlice : User :=
  { id := 1, email := "alice@example.com", hashed_password := "hash-a",
    full_name := "Alice", is_active := true }

/-- Second sample user, for cross-tenant scenarios. -/
def uBob : User :=
  { id := 2, email := "bob@example.com", hashed_password := "hash-b",
    full_name := "Bob", is_active := true }

/-- Sample product owned by `uAlice`, sku "X1", empty stock. -/
def pWidget : Product :=
  { id := 1, name := "Widget", description := none, sku := "X1",
    current_stock := 0, min_stock := 0, max_stock := 100, user_id := 1 }

/-- A one-user, one-product state. -/
def dbOne : DB :=
  { users := [uAlice], products := [pWidget], supplies := [], inventories := [] }

instance (db : DB) : Decidable (StockInv db) := by
  unfold StockInv; infer_instance

instance (db : DB) : Decidable (WF db) := by
  unfold WF; infer_instance

/-- C1: for every product p and every sequence of supply-create (receive)
and supply-delete (retract) operations performed through the
application's endpoints, `p.current_stock` always equals the sum of the
quantities of the Supply records currently linked to p (from any
well-formed state already satisfying the correspondence). -/
theorem c1_stock_invariant (db : DB) (ops : List Op) (h : WF db ∧ StockInv db) :
    ∀ p ∈ (applyOps db ops).products,
      p.current_stock = supplySum (applyOps db ops).supplies p.id := by
  suffices hh : WF (applyOps db ops) ∧ StockInv (applyOps db ops) from hh.2
  induction ops generalizing db with
  | nil => exact h
  | cons op ops ih =>
      cases op with
      | receive u body => exact ih _ (receive_step db u body h.1 h.2)
      | retract u sid => exact ih _ (retract_step db u sid h.1 h.2)

/-- Witness for `c1_stock_invariant`: the §8 scenario — receive quantity
10 from "Acme", then retract that supply. -/
theorem c1_stock_invariant_witness :
    (WF dbOne ∧ StockInv dbOne) ∧
      StockInv (applyOps dbOne
        [Op.receive uAlice { product_id := 1, quantity := 10, supplier := "Acme" },
         Op.retract uAlice 1]) :=
  ⟨by decide,
   fun p hp => c1_stock_invariant dbOne
     [Op.receive uAlice { product_id := 1, quantity := 10, supplier := "Acme" },
      Op.retract uAlice 1] (by decide) p hp⟩

theorem find?_append_cons (q : α → Bool) (l₁ l₂ : List α) (a : α)
    (h1 : ∀ x ∈ l₁, q x = false) (ha : q a = true) :
    (l₁ ++ a :: l₂).find? q = some a := by
  induction l₁ with
  | nil => simpa using List.find?_cons_of_pos l₂ ha
  | cons b t ih =>
      have hb : q b = false := h1 b (List.mem_cons_self b t)
      rw [List.cons_append, List.find?_cons_of_neg _ (by simp [hb])]
      exact ih (fun x hx => h1 x (List.mem_cons_of_mem b hx))

/-- C3: deleting an owned supply s deletes exactly that one row and, when
the referenced product still exists under the caller's ownership scope,
decrements exactly that product's `current_stock` by exactly
`s.quantity`, leaving every other row untouched; when the product is
gone, the decrement is skipped but the supply row is still deleted. -/
theorem c3_retract_exact (db : DB) (u : User) (sid : Nat) (s : Supply)
    (hs : db.supplies.find? (fun x => x.id == sid && x.user_id == u.id) = some s) :
    (∃ m₁ m₂, db.supplies = m₁ ++ s :: m₂ ∧
        (delete_supply_api db u sid).2.supplies = m₁ ++ m₂) ∧
    (delete_supply_api db u sid).1 = Except.ok "Supply deleted successfully" ∧
    (∀ p l₁ l₂, db.products = l₁ ++ p :: l₂ →
        (∀ x ∈ l₁, (x.id == s.product_id && x.user_id == u.id) = false) →
        (p.id == s.product_id && p.user_id == u.id) = true →
        (delete_supply_api db u sid).2.products
          = l₁ ++ { p with current_stock := p.current_stock - s.quantity } :: l₂) ∧
    ((∀ p ∈ db.products, (p.id == s.product_id && p.user_id == u.id) = false) →
        (delete_supply_api db u sid).2.products = db.products) := by
  have hqs := List.find?_some hs
  simp only [Bool.and_eq_true, beq_iff_eq] at hqs
  obtain ⟨m₁, m₂, hsdec, hm₁⟩ := find?_decomp hs
  have herase : db.supplies.eraseP (fun x => x.id == sid && x.user_id == u.id)
      = m₁ ++ m₂ := by
    rw [hsdec]; exact eraseP_decomp _ m₁ m₂ s hm₁ (by simp [hqs.1, hqs.2])
  refine ⟨⟨m₁, m₂, hsdec, ?_⟩, ?_, ?_, ?_⟩
  · cases hfp : db.products.find? (fun p => p.id == s.product_id && p.user_id == u.id) with
    | none => simp [delete_supply_api, hs, hfp, herase]
    | some p => simp [delete_supply_api, hs, hfp, herase]
  · cases hfp : db.products.find? (fun p => p.id == s.product_id && p.user_id == u.id) with
    | none => simp [delete_supply_api, hs, hfp]
    | some p => simp [delete_supply_api, hs, hfp]
  · intro p l₁ l₂ hdec h1 hp
    have hfp : db.products.find? (fun q => q.id == s.product_id && q.user_id == u.id)
        = some p := by
      rw [hdec]; exact find?_append_cons _ l₁ l₂ p h1 hp
    simp only [delete_supply_api, hs, hfp]
    show modifyP (fun q => q.id == s.product_id && q.user_id == u.id)
      (fun q => { q with current_stock := q.current_stock - s.quantity }) db.products = _
    rw [hdec]
    exact modifyP_decomp _ _ l₁ l₂ p h1 hp
  · intro hnone
    have hfp : db.products.find? (fun q => q.id == s.product_id && q.user_id == u.id)
        = none := List.find?_eq_none.mpr (fun x hx => by simp [hnone x hx])
    simp [delete_supply_api, hs, hfp]

/-- Supply row created by the C1 witness scenario, used to evaluate
`c3_retract_exact` concretely. -/
def sAcme : Supply :=
  { id := 1, product_id := 1, quantity := 10, supplier := "Acme",
    status := "received", user_id := 1 }

/-- A state holding one supply of quantity 10 against `pWidget` whose
stock is 10. -/
def dbSupplied : DB :=
  { users := [uAlice], products := [{ pWidget with current_stock := 10 }],
    supplies := [sAcme], inventories := [] }

/-- Witness for `c3_retract_exact` at a concrete one-supply state. -/
theorem c3_retract_exact_witness :
    (delete_supply_api dbSupplied uAlice 1).1 = Except.ok "Supply deleted successfully" ∧
    (delete_supply_api dbSupplied uAlice 1).2.products
      = [{ pWidget with current_stock := (10 : Int) - 10 }] :=
  ⟨(c3_retract_exact dbSupplied uAlice 1 sAcme (by decide)).2.1,
   (c3_retract_exact dbSupplied uAlice 1 sAcme (by decide)).2.2.1
     { pWidget with current_stock := 10 } [] [] rfl (by simp) (by decide)⟩

/-- C5: for a caller A and an entity id that matches no record owned by A
— which covers both an id owned by another user B and a non-existent id —
every owner-scoped read, update, or delete endpoint returns the one fixed
NotFound response for that entity kind and leaves the store untouched, so
B's records are indistinguishable from absent ones and can never be
observed or mutated by A. -/
theorem c5_cross_tenant (db : DB) (A : User) (eid : Nat) (pc : ProductCreate)
    (upd : InventoryUpdate) (now : Int) (nm : String) (cm : Option String)
    (bflag : Bool) (st : String) :
    ((∀ p ∈ db.products, ¬(p.id = eid ∧ p.user_id = A.id)) →
      read_product_api db A eid
        = (Except.error { status := 404, detail := "Product not found" }, db) ∧
      update_product_api db A eid pc
        = (Except.error { status := 404, detail := "Product not found" }, db) ∧
      delete_product_api db A eid
        = (Except.error { status := 404, detail := "Product not found" }, db) ∧
      delete_product_from_form db A eid
        = ({ url := "/products-page?error=Product+not+found" }, db)) ∧
    ((∀ s ∈ db.supplies, ¬(s.id = eid ∧ s.user_id = A.id)) →
      delete_supply_api db A eid
        = (Except.error { status := 404, detail := "Supply not found" }, db) ∧
      delete_supply_from_form db A eid
        = ({ url := "/supplies-page?error=Поставка+не+найдена" }, db)) ∧
    ((∀ i ∈ db.inventories, ¬(i.id = eid ∧ i.user_id = A.id)) →
      update_inventory_api db A eid upd now
        = (Except.error { status := 404, detail := "Inventory not found" }, db) ∧
      delete_inventory_api db A eid
        = (Except.error { status := 404, detail := "Inventory not found" }, db) ∧
      update_inventory_from_form db A eid nm cm bflag now
        = ({ url := "/inventories-page?error=Инвентаризация+не+найдена" }, db) ∧
      update_inventory_status db A eid st
        = ({ url := "/inventories-page?error=Inventory+not+found" }, db) ∧
      delete_inventory_from_form db A eid
        = ({ url := "/inventories-page?error=Inventory+not+found" }, db)) := by
  refine ⟨?_, ?_, ?_⟩
  · intro h
    have hf : db.products.find? (fun p => p.id == eid && p.user_id == A.id) = none :=
      List.find?_eq_none.mpr (fun x hx => by simpa using h x hx)
    exact ⟨by simp [read_product_api, hf], by simp [update_product_api, hf],
      by simp [delete_product_api, hf], by simp [delete_product_from_form, hf]⟩
  · intro h
    have hf : db.supplies.find? (fun s => s.id == eid && s.user_id == A.id) = none :=
      List.find?_eq_none.mpr (fun x hx => by simpa using h x hx)
    exact ⟨by simp [delete_supply_api, hf], by simp [delete_supply_from_form, hf]⟩
  · intro h
    have hf : db.inventories.find? (fun i => i.id == eid && i.user_id == A.id) = none :=
      List.find?_eq_none.mpr (fun x hx => by simpa using h x hx)
    exact ⟨by simp [update_inventory_api, hf], by simp [delete_inventory_api, hf],
      by simp [update_inventory_from_form, hf], by simp [update_inventory_status, hf],
      by simp [delete_inventory_from_form, hf]⟩

/-- A state in which every record belongs to `uBob`, probed by `uAlice`. -/
def dbBobOnly : DB :=
  { users := [uAlice, uBob],
    products := [{ pWidget with user_id := 2 }],
    supplies := [{ id := 1, product_id := 1, quantity := 5, supplier := "Acme",
                   status := "received", user_id := 2 }],
    inventories := [{ id := 1, name := "Audit", description := none, status := "pending",
                      is_successful := false, comment := none, updated_at := none,
                      user_id := 2 }] }

/-- Witness for `c5_cross_tenant`: Alice probing Bob's records (all with
id 1) gets the NotFound responses and changes nothing. -/
theorem c5_cross_tenant_witness :
    read_product_api dbBobOnly uAlice 1
      = (Except.error { status := 404, detail := "Product not found" }, dbBobOnly) ∧
    delete_supply_api dbBobOnly uAlice 1
      = (Except.error { status := 404, detail := "Supply not found" }, dbBobOnly) ∧
    delete_inventory_api dbBobOnly uAlice 1
      = (Except.error { status := 404, detail := "Inventory not found" }, dbBobOnly) := by
  have h := c5_cross_tenant dbBobOnly uAlice 1
    { name := "W", description := none, sku := "Z9", min_stock := 0, max_stock := 10 }
    {} 0 "n" none false "pending"
  exact ⟨(h.1 (by decide)).1, (h.2.1 (by decide)).1, (h.2.2 (by decide)).2.1⟩

/-- Projection to the product fields `PUT /products/{id}` must not touch:
primary key, owner, and ledger-maintained stock. -/
def productFrame (p : Product) : Nat × Nat × Int :=
  (p.id, p.user_id, p.current_stock)

/-- C9: `PUT /products/{product_id}` can change only name, description,
sku, min_stock and max_stock: the id, the owner and in particular
`current_stock` of every stored product are exactly what they were before
the request, whether or not the update is accepted. -/
theorem c9_update_preserves_stock (db : DB) (u : User) (pid : Nat) (body : ProductCreate) :
    ((put_products db u pid body).2.products).map productFrame
      = db.products.map productFrame := by
  unfold put_products
  cases hp : productCreate_parse body with
  | none => simp
  | some pc =>
      simp only
      unfold update_product_api
      cases hf : db.products.find? (fun p => p.id == pid && p.user_id == u.id) with
      | none => simp
      | some dbp =>
          simp only
          exact map_modifyP _ _ _ _ (fun x => rfl)

/-- C7: a token issued for subject s with ttl t carries expiry
`issued_at + t` (30 minutes when no ttl is given); verification succeeds
and yields s at any instant strictly before the expiry and fails at any
instant strictly after it. -/
theorem c7_token_expiry (sub : String) (ttl now t : Int) :
    (create_access_token sub none now
        = TokenStr.jwt (some sub) (now + 30 * 60) SECRET_KEY) ∧
    (t < now + ttl →
      jwt_decode (create_access_token sub (some ttl) now) SECRET_KEY t
        = Except.ok { sub := some sub, exp := now + ttl }) ∧
    (now + ttl < t →
      jwt_decode (create_access_token sub (some ttl) now) SECRET_KEY t
        = Except.error ()) := by
  refine ⟨rfl, ?_, ?_⟩
  · intro h
    show (if SECRET_KEY ≠ SECRET_KEY then (Except.error () : Except Unit Payload)
          else if now + ttl < t then Except.error ()
          else Except.ok { sub := some sub, exp := now + ttl })
        = Except.ok { sub := some sub, exp := now + ttl }
    rw [if_neg (by simp), if_neg (by omega)]
  · intro h
    show (if SECRET_KEY ≠ SECRET_KEY then (Except.error () : Except Unit Payload)
          else if now + ttl < t then Except.error ()
          else Except.ok { sub := some sub, exp := now + ttl })
        = Except.error ()
    rw [if_neg (by simp), if_pos h]

/-- Witness for `c7_token_expiry`: a 600-second token verified at t = 10
(valid, yields the subject) and at t = 1000 (expired). -/
theorem c7_token_expiry_witness :
    jwt_decode (create_access_token "alice@example.com" (some 600) 0) SECRET_KEY 10
      = Except.ok { sub := some "alice@example.com", exp := 0 + 600 } ∧
    jwt_decode (create_access_token "alice@example.com" (some 600) 0) SECRET_KEY 1000
      = Except.error () :=
  ⟨(c7_token_expiry "alice@example.com" 600 0 10).2.1 (by decide),
   (c7_token_expiry "alice@example.com" 600 0 1000).2.2 (by decide)⟩

/-- Overwrite every stored user's `is_active` flag by `f`, leaving all
other columns alone. -/
def mapActive (f : User → Bool) (db : DB) : DB :=
  { db with users := db.users.map (fun u => { u with is_active := f u }) }

/-- The per-user flag rewrite used by `mapActive`. -/
def setActiveFlag (f : User → Bool) (u : User) : User :=
  { u with is_active := f u }

theorem get_user_by_email_mapActive (f : User → Bool) (db : DB) (e : String) :
    get_user_by_email (mapActive f db) e
      = (get_user_by_email db e).map (setActiveFlag f) := by
  unfold get_user_by_email mapActive setActiveFlag
  rw [List.find?_map]
  rfl

/-- C10: authentication never consults `is_active`: rewriting the flag of
every stored user (in particular setting it to False) changes neither the
outcome of credential verification at login nor of token resolution on
the bearer or cookie path — each result is the same user record up to the
rewritten flag. -/
theorem c10_auth_ignores_is_active (db : DB) (f : User → Bool)
    (vp : String → String → Bool) (email password : String)
    (auth : Authorization) (cookie : Option TokenStr) (now : Int) :
    authenticate_user vp (mapActive f db) email password
      = (authenticate_user vp db email password).map (setActiveFlag f) ∧
    get_current_user_for_api (mapActive f db) auth now
      = (get_current_user_for_api db auth now).map (setActiveFlag f) ∧
    get_current_user_for_web (mapActive f db) cookie now
      = (get_current_user_for_web db cookie now).map (setActiveFlag f) := by
  refine ⟨?_, ?_, ?_⟩
  · unfold authenticate_user
    rw [get_user_by_email_mapActive]
    cases get_user_by_email db email with
    | none => rfl
    | some u =>
        by_cases hv : vp password u.hashed_password
        · simp only [Option.map_some]
          show (if vp password u.hashed_password then some (setActiveFlag f u) else none) = _
          rw [if_pos hv]
          show _ = Option.map (setActiveFlag f) (if vp password u.hashed_password then some u else none)
          rw [if_pos hv]
          rfl
        · simp only [Option.map_some]
          show (if vp password u.hashed_password then some (setActiveFlag f u) else none) = _
          rw [if_neg hv]
          show _ = Option.map (setActiveFlag f) (if vp password u.hashed_password then some u else none)
          rw [if_neg hv]
          rfl
  · cases hb : httpBearer auth with
    | error e => simp only [get_current_user_for_api, hb]; rfl
    | ok token =>
        cases hj : jwt_decode token SECRET_KEY now with
        | error e => simp only [get_current_user_for_api, hb, hj]; rfl
        | ok payload =>
            cases hsub : payload.sub with
            | none => simp only [get_current_user_for_api, hb, hj, hsub]; rfl
            | some e2 =>
                simp only [get_current_user_for_api, hb, hj, hsub]
                rw [get_user_by_email_mapActive]
                cases get_user_by_email db e2 with
                | none => rfl
                | some u => rfl
  · cases cookie with
    | none => rfl
    | some token =>
        cases hj : jwt_decode token SECRET_KEY now with
        | error e => simp only [get_current_user_for_web, hj]; rfl
        | ok payload =>
            cases hsub : payload.sub with
            | none => simp only [get_current_user_for_web, hj, hsub]; rfl
            | some e2 =>
                simp only [get_current_user_for_web, hj, hsub]
                exact get_user_by_email_mapActive f db e2

/-- C2 counterexample: `POST /supplies/create` (the web form path) never
validates the quantity — submitting quantity -3 against an owned product
succeeds, writes a Supply row with quantity -3, and drops the product's
stock to -3, where the claim demands an InvalidInput failure with no row
and no stock change. -/
theorem c2_counterexample :
    (create_supply_from_form dbOne uAlice 1 (-3) "Acme").1
      = { url := "/supplies-page?success=Supply+created" } ∧
    ((create_supply_from_form dbOne uAlice 1 (-3) "Acme").2.supplies.map Supply.quantity)
      = [-3] ∧
    ((create_supply_from_form dbOne uAlice 1 (-3) "Acme").2.products.map Product.current_stock)
      = [-3] := by
  decide

/-- C2 amended: only the JSON API rejects a non-positive quantity (with
the schema-validation error, no row written and no stock change); both
surfaces report NotFound for a product not owned by the caller; the web
form applies whatever quantity was posted. -/
theorem c2_supply_validation (db : DB) (u : User) (body : SupplyCreate)
    (pid : Nat) (qty : Int) (sup : String) :
    (body.quantity ≤ 0 →
      post_supplies db u body
        = (Except.error { status := 422, detail := "Quantity must be positive" }, db)) ∧
    ((∀ p ∈ db.products, ¬(p.id = body.product_id ∧ p.user_id = u.id)) →
      0 < body.quantity →
      post_supplies db u body
        = (Except.error { status := 404, detail := "Product not found" }, db)) ∧
    ((∀ p ∈ db.products, ¬(p.id = pid ∧ p.user_id = u.id)) →
      create_supply_from_form db u pid qty sup
        = ({ url := "/supplies-page?error=Product+not+found" }, db)) := by
  refine ⟨?_, ?_, ?_⟩
  · intro h
    have hv : supplyCreate_valid body = false := by
      simp only [supplyCreate_valid, decide_eq_false_iff_not]
      omega
    simp [post_supplies, hv]
  · intro h hq
    have hv : supplyCreate_valid body = true := by
      simp only [supplyCreate_valid, decide_eq_true_eq]
      omega
    have hf : db.products.find? (fun p => p.id == body.product_id && p.user_id == u.id)
        = none := List.find?_eq_none.mpr (fun x hx => by simpa using h x hx)
    simp [post_supplies, hv, create_supply_api, hf]
  · intro h
    have hf : db.products.find? (fun p => p.id == pid && p.user_id == u.id)
        = none := List.find?_eq_none.mpr (fun x hx => by simpa using h x hx)
    simp [create_supply_from_form, hf]

/-- Witness for `c2_supply_validation`: quantity 0 rejected by the API
schema; an unknown product id 99 yields NotFound on both surfaces. -/
theorem c2_supply_validation_witness :
    post_supplies dbOne uAlice { product_id := 1, quantity := 0, supplier := "Acme" }
      = (Except.error { status := 422, detail := "Quantity must be positive" }, dbOne) ∧
    post_supplies dbOne uAlice { product_id := 99, quantity := 5, supplier := "Acme" }
      = (Except.error { status := 404, detail := "Product not found" }, dbOne) ∧
    create_supply_from_form dbOne uAlice 99 5 "Acme"
      = ({ url := "/supplies-page?error=Product+not+found" }, dbOne) :=
  ⟨(c2_supply_validation dbOne uAlice { product_id := 1, quantity := 0, supplier := "Acme" }
      99 5 "Acme").1 (by decide),
   (c2_supply_validation dbOne uAlice { product_id := 99, quantity := 5, supplier := "Acme" }
      99 5 "Acme").2.1 (by decide) (by decide),
   (c2_supply_validation dbOne uAlice { product_id := 1, quantity := 0, supplier := "Acme" }
      99 5 "Acme").2.2 (by decide)⟩

/-- Sample pending audit record owned by `uAlice`. -/
def invPending : Inventory :=
  { id := 1, name := "Audit", description := none, status := "pending",
    is_successful := false, comment := none, updated_at := none, user_id := 1 }

/-- A state with one pending inventory. -/
def dbInv : DB :=
  { users := [uAlice], products := [], supplies := [], inventories := [invPending] }

/-- C4 counterexample: `PUT /inventories/1` with body status "archived"
— a value outside the allowed set — succeeds on the JSON API (the
`InventoryUpdate` schema has no status validator) and overwrites the
stored record, where the claim demands an InvalidInput rejection with the
record unchanged. -/
theorem c4_counterexample :
    (update_inventory_api dbInv uAlice 1 { status := some "archived" } 7).1
      = Except.ok { invPending with status := "archived", updated_at := some 7 } ∧
    ((update_inventory_api dbInv uAlice 1 { status := some "archived" } 7).2.inventories.map
      Inventory.status) = ["archived"] :=
  ⟨rfl, rfl⟩

/-- C4 amended: only the web form endpoint `/inventories/update-status/..`
enforces the set — a status outside pending, completed, cancelled is
rejected with an error redirect and the store is returned completely
unchanged, while an allowed status is written to exactly the status
column of the fetched record; the JSON API applies any status string. -/
theorem c4_status_guard (db : DB) (u : User) (iid : Nat) (st : String) (inv : Inventory)
    (hf : db.inventories.find? (fun i => i.id == iid && i.user_id == u.id) = some inv) :
    (valid_statuses.contains st = false →
      update_inventory_status db u iid st
        = ({ url := "/inventories-page?error=Invalid+status" }, db)) ∧
    (valid_statuses.contains st = true →
      update_inventory_status db u iid st
        = ({ url := "/inventories-page?success=Status+updated" },
           { db with inventories :=
               (modifyP (fun i => i.id == iid && i.user_id == u.id)
                 (fun i => { i with status := st }) db.inventories) })) := by
  constructor
  · intro hbad
    simp [update_inventory_status, hf, hbad]
    simpa using hbad
  · intro hok
    simp [update_inventory_status, hf, hok]
    simpa using hok

/-- Witness for `c4_status_guard`: "archived" is refused and the state
survives untouched; "completed" is applied. -/
theorem c4_status_guard_witness :
    update_inventory_status dbInv uAlice 1 "archived"
      = ({ url := "/inventories-page?error=Invalid+status" }, dbInv) ∧
    ((update_inventory_status dbInv uAlice 1 "completed").2.inventories.map Inventory.status)
      = ["completed"] := by
  refine ⟨(c4_status_guard dbInv uAlice 1 "archived" invPending (by decide)).1 (by decide), ?_⟩
  rw [(c4_status_guard dbInv uAlice 1 "completed" invPending (by decide)).2 (by decide)]
  decide

/-- A creation payload reusing `pWidget`'s sku "X1". -/
def pcDup : ProductCreate :=
  { name := "Widget2", description := none, sku := "X1", min_stock := 0, max_stock := 10 }

/-- C8 counterexample: `POST /products/` with the already-stored sku "X1"
does not fail with 422 or 400 — the handler performs no duplicate check,
so the unique constraint fires at commit and the request dies with an
unhandled 500 (the claim's InvalidInput mapping to 422/400 is not what
the JSON surface produces). -/
theorem c8_counterexample :
    dbOne.products.map Product.sku = ["X1"] ∧
    pcDup.sku = "X1" ∧
    (post_products dbOne uAlice pcDup).1
      = Except.error { status := 500, detail := "Internal Server Error" } ∧
    (post_products dbOne uAlice pcDup).2 = dbOne :=
  ⟨rfl, rfl, rfl, rfl⟩

/-- C8 amended: a product-creation request whose sku duplicates a stored
product's sku never writes a new Product row on either surface; the web
form rejects it explicitly with an error redirect, while the JSON API
fails with the unhandled unique-constraint error (HTTP 500, not
422/400). -/
theorem c8_duplicate_sku (db : DB) (u : User) (body : ProductCreate)
    (nm sku2 : String) (ds : Option String) (mn mx : Int) :
    ((∃ q ∈ db.products, q.sku = stripStr body.sku) → stripStr body.sku ≠ "" →
      0 ≤ body.min_stock → 0 ≤ body.max_stock →
      post_products db u body
        = (Except.error { status := 500, detail := "Internal Server Error" }, db)) ∧
    ((∃ q ∈ db.products, q.sku = sku2) →
      create_product_from_form db u nm sku2 ds mn mx
        = ({ url := "/products-page?error=SKU+already+exists" }, db)) := by
  constructor
  · intro hdup hsku hmn hmx
    obtain ⟨q, hq, hqsku⟩ := hdup
    have hparse : productCreate_parse body = some { body with sku := stripStr body.sku } := by
      unfold productCreate_parse
      rw [if_neg hsku, if_neg (by simp; omega)]
    have hany : db.products.any (fun r => r.sku == stripStr body.sku) = true :=
      List.any_eq_true.mpr ⟨q, hq, by simp [hqsku]⟩
    simp [post_products, hparse, create_product_api, hany]
  · intro hdup
    obtain ⟨q, hq, hqsku⟩ := hdup
    cases hfind : db.products.find? (fun p => p.sku == sku2) with
    | none =>
        exact absurd (by simp [hqsku]) (List.find?_eq_none.mp hfind q hq)
    | some r =>
        simp [create_product_from_form, hfind]

/-- Witness for `c8_duplicate_sku` at the one-product state. -/
theorem c8_duplicate_sku_witness :
    post_products dbOne uAlice pcDup
      = (Except.error { status := 500, detail := "Internal Server Error" }, dbOne) ∧
    create_product_from_form dbOne uAlice "Widget2" "X1" none 0 10
      = ({ url := "/products-page?error=SKU+already+exists" }, dbOne) :=
  ⟨(c8_duplicate_sku dbOne uAlice pcDup "Widget2" "X1" none 0 10).1
      (by decide) (by decide) (by decide) (by decide),
   (c8_duplicate_sku dbOne uAlice pcDup "Widget2" "X1" none 0 10).2 (by decide)⟩

/-- C6: evaluation of the bearer-authentication chain.  A request with no
Authorization header is rejected by `HTTPBearer` itself with HTTP 403
"Not authenticated" and no WWW-Authenticate challenge header (the
handler's own 401-with-challenge branch at main.py:73-78 is unreachable);
a present but undecodable token yields 401 "Invalid token", and a valid
token whose subject matches no stored user yields 401 "User not
found". -/
theorem c6_auth_responses :
    get_current_user_for_api dbOne Authorization.missing 0
      = Except.error { status := 403, detail := "Not authenticated", www_authenticate := false } ∧
    get_current_user_for_api dbOne
        (Authorization.header "Bearer" (TokenStr.malformed "junk")) 0
      = Except.error { status := 401, detail := "Invalid token" } ∧
    get_current_user_for_api dbOne
        (Authorization.header "Bearer" (create_access_token "ghost@example.com" none 0)) 5
      = Except.error { status := 401, detail := "User not found" } :=
  ⟨rfl, rfl, rfl⟩
